import Mathlib

/-!
Shallow embedding of the cron-operator reconciliation core
(internal/controller cron controller, file `src/unnamed/part_000`, API types
`src/unnamed/part_001`), together with theorems settling the frozen claims.

Conventions of the embedding:
* timestamps are `Int` Unix seconds; `metav1.Time` pointers become `Option Int`;
* Kubernetes store calls are an explicit `Client σ` record of state-passing
  functions, instantiated by an operational in-memory store (`OpStore`) and by
  a static result oracle (`Oracle`) used to inject store errors;
* the event recorder is a write-only list of `Event` threaded through state;
* helpers of this repository that are not under `src/` (only their callers
  are) carry a doc comment starting with `Modelled from the spec:`.
-/

/-- Decidable equality on `Except` results, used to evaluate concrete runs. -/
instance {ε α : Type} [DecidableEq ε] [DecidableEq α] : DecidableEq (Except ε α) :=
  fun a b =>
    match a, b with
    | .error x, .error y =>
      if h : x = y then isTrue (by rw [h]) else isFalse (by intro hh; cases hh; exact h rfl)
    | .error _, .ok _ => isFalse (by intro h; cases h)
    | .ok _, .error _ => isFalse (by intro h; cases h)
    | .ok x, .ok y =>
      if h : x = y then isTrue (by rw [h]) else isFalse (by intro hh; cases hh; exact h rfl)

/-- Severity of a recorded event (corev1.EventTypeNormal / EventTypeWarning). -/
inductive EventType where
  | normal
  | warning
deriving DecidableEq

/-- An event recorded against the cron resource: severity plus reason string,
as passed to `r.recorder.Event(f)` in the source. -/
structure Event where
  etype : EventType
  reason : String
deriving DecidableEq

/-- JobConditionType from `src/unnamed/part_001` lines 210-240. -/
inductive JobConditionType where
  | created
  | running
  | restarting
  | succeeded
  | failed
deriving DecidableEq

/-- ConcurrencyPolicy from `src/unnamed/part_001` lines 118-136. -/
inductive ConcurrencyPolicy where
  | allow
  | forbid
  | replace
deriving DecidableEq

/-- corev1.ObjectReference, restricted to the fields the controller reads. -/
structure ObjectReference where
  kind : String
  apiVersion : String
  namespc : String
  name : String
  uid : String
deriving DecidableEq

/-- corev1.TypedLocalObjectReference as used by CronHistory.Object. -/
structure TypedLocalObjectReference where
  apiGroup : Option String
  kind : String
  name : String
deriving DecidableEq

/-- CronHistory from `src/unnamed/part_001` lines 157-179. -/
structure CronHistory where
  uid : String
  object : TypedLocalObjectReference
  status : JobConditionType
  created : Option Int
  finished : Option Int
deriving DecidableEq

/-- CronSpec from `src/unnamed/part_001` lines 68-105.  The template's
RawExtension workload is represented by the metadata the controller reads
out of it: apiVersion, kind, name, generateName and labels. -/
structure CronSpec where
  schedule : String
  templateAPIVersion : String
  templateKind : String
  templateName : String
  templateGenerateName : String
  templateLabels : List (String × String)
  concurrencyPolicy : ConcurrencyPolicy
  suspend : Option Bool
  deadline : Option Int
  historyLimit : Option Nat
deriving DecidableEq

/-- CronStatus from `src/unnamed/part_001` lines 138-155. -/
structure CronStatus where
  active : List ObjectReference
  history : List CronHistory
  lastScheduleTime : Option Int
deriving DecidableEq

/-- The Cron resource: object metadata plus spec and status. -/
structure Cron where
  name : String
  namespc : String
  uid : String
  creationTimestamp : Int
  deletionTimestamp : Option Int
  spec : CronSpec
  status : CronStatus
deriving DecidableEq

/-- An observed or to-be-created workload object (PyTorchJob/TFJob), reduced
to the fields the controller reads: identity, template metadata, owner link,
and the lifecycle condition the classifier consumes. -/
structure Workload where
  apiVersion : String
  kind : String
  name : String
  generateName : String
  namespc : String
  uid : String
  labels : List (String × String)
  ownerCronUID : Option String
  creationTimestamp : Option Int
  condition : Option JobConditionType
  finishedAt : Option Int
deriving DecidableEq

/-- A parsed cron schedule: its "next occurrence strictly after t" primitive
(cronv3.Schedule.Next). -/
structure Sched where
  next : Int → Int

/-- Environment holding the external cron-expression parser
(cronv3.ParseStandard): `none` models a parse error. -/
structure SchedEnv where
  parse : String → Option Sched

/-- Store error kinds the controller distinguishes (apierrors.IsNotFound,
apierrors.IsAlreadyExists, everything else). -/
inductive StoreErr where
  | notFound
  | alreadyExists
  | other
deriving DecidableEq

/-- Error returned by a reconciliation step: a store error propagated as-is,
or a failure to initialize a workload of an unsupported template kind. -/
inductive CycleErr where
  | store (e : StoreErr)
  | unsupportedKind
deriving DecidableEq

/-- The store client as seen by the reconciler: `client.Get/Create/Delete`,
`client.Status().Update`, the uncached `reader.Get`, and `client.Get` of the
Cron resource itself.  Every call is state-passing over an abstract store
state `σ`; workload keys are (namespace, name). -/
structure Client (σ : Type) where
  doGetCron : σ → Except StoreErr Cron × σ
  doGet : σ → String → String → Except StoreErr Workload × σ
  doReaderGet : σ → String → String → Except StoreErr Workload × σ
  doCreate : σ → Workload → Except StoreErr Workload × σ
  doDelete : σ → String → String → Except StoreErr Unit × σ
  doStatusUpdate : σ → Cron → Except StoreErr Unit × σ

/-- Reconciler-visible state during one cycle: the store, the in-memory Cron
object being mutated (the caller-held pointer), and the recorded events. -/
structure RSt (σ : Type) where
  store : σ
  cron : Cron
  events : List Event
deriving DecidableEq

/-- Modelled from the spec: the missing label constant `common.LabelCronName`
attached to every created workload (§6 owner/back-reference concerns; the
exact label key is immaterial to the claims). -/
def LabelCronName : String := "cron-name"

/-- Modelled from the spec: the missing type registry (§9, "a mapping from
kind identifier to implementation, registered at process start") — the two
workload kinds registered in SetupWithManager (`src/unnamed/part_000` lines
99-106): PyTorchJob and TFJob. -/
def supportedKinds : List String := ["PyTorchJob", "TFJob"]

/-- Modelled from the spec: the missing helper `newEmptyWorkload` — builds an
object of the template's kind populated from the workload template's
metadata (§4.6 "construct the workload"; §9 "buildEmpty(kind) → object"),
failing for a kind outside the registered set. -/
def newEmptyWorkload (c : Cron) : Except CycleErr Workload :=
  if supportedKinds.contains c.spec.templateKind then
    .ok { apiVersion := c.spec.templateAPIVersion
          kind := c.spec.templateKind
          name := c.spec.templateName
          generateName := c.spec.templateGenerateName
          namespc := ""
          uid := ""
          labels := c.spec.templateLabels
          ownerCronUID := none
          creationTimestamp := none
          condition := none
          finishedAt := none }
  else .error .unsupportedKind

/-- Modelled from the spec: the missing classifier `IsWorkloadFinished`
(§4.3) — maps the workload's most advanced reported condition to the
lifecycle vocabulary; Succeeded and Failed are the only terminal outcomes,
everything else (including no condition) is unfinished. -/
def IsWorkloadFinished (w : Workload) : JobConditionType × Bool :=
  match w.condition with
  | some .succeeded => (.succeeded, true)
  | some .failed => (.failed, true)
  | some c => (c, false)
  | none => (.created, false)

/-- Modelled from the spec: the missing helper `deleteFromActiveList` —
removes from the recorded active list every reference with the given unique
id (§3: active set uniqueness by unique id). -/
def deleteFromActiveList (c : Cron) (uid : String) : Cron :=
  { c with status :=
      { c.status with active := c.status.active.filter (fun r => r.uid ≠ uid) } }

/-- Modelled from the spec: the missing helper `inActiveList` — whether the
workload "is already tracked in active" (§4.6).  Matching is by namespace
and name: on the already-exists path the candidate object was never
created, so it carries no unique id to match by. -/
def inActiveList (active : List ObjectReference) (w : Workload) : Bool :=
  active.any (fun r => r.namespc = w.namespc ∧ r.name = w.name)

/-- Modelled from the spec: the missing helper `getDefaultJobName` — the
deterministic name "synthesized from the resource name and the firing
timestamp" (§4.6). -/
def getDefaultJobName (c : Cron) (scheduleTime : Int) : String :=
  c.name ++ "-" ++ toString scheduleTime

/-- Modelled from the spec: the missing helper `workloadToHistory` — the
HistoryEntry built from one workload observation (§3): unique id, object
reference (kind / API group + name), the classified status, the creation
time, and the finished time when terminal. -/
def workloadToHistory (w : Workload) (apiVersion kind : String) : CronHistory :=
  { uid := w.uid
    object := { apiGroup := some apiVersion, kind := kind, name := w.name }
    status := (IsWorkloadFinished w).1
    created := w.creationTimestamp
    finished := w.finishedAt }

/-- Modelled from the spec: the occurrence walk inside the missing helper
`getNextScheduleTime` (§4.1) — collect the occurrences strictly after the
anchor and ≤ now, walking with the rule's "next occurrence after t"
primitive; the fuel of 101 realizes the fixed bound of 100 missed
occurrences (collecting a 101st occurrence means the bound is exceeded). -/
def collectMissed (next : Int → Int) (now : Int) : Nat → Int → List Int
  | 0, _ => []
  | Nat.succ fuel, t =>
      let t2 := next t
      if t2 ≤ now then t2 :: collectMissed next now fuel t2 else []

/-- Modelled from the spec: the missing helper `getNextScheduleTime` (§4.1) —
anchor at last-fired time if present, else the resource's creation time;
if more than 100 occurrences were missed, signal "too many missed
schedules" and treat as none due; otherwise return the most recent
occurrence ≤ now (none when no occurrence is due). -/
def getNextScheduleTime (sched : Sched) (c : Cron) (now : Int) :
    Option Int × List Event :=
  let anchor := c.status.lastScheduleTime.getD c.creationTimestamp
  let occs := collectMissed sched.next now 101 anchor
  if occs.length > 100 then (none, [⟨.warning, "TooManyMissedTimes"⟩])
  else (occs.getLast?, [])

/-- Modelled from the spec: the missing helper `nextScheduledTimeDuration` —
the wakeup hint `nextOccurrenceAfter(now) - now` (§4.1). -/
def nextScheduledTimeDuration (sched : Sched) (now : Int) : Option Int :=
  some (sched.next now - now)

/-- The sort.Slice comparator of updateCronHistory (`src/unnamed/part_000`
lines 309-321): entries with nil Created sort after entries with a Created;
metav1's nil-safe Equal makes two nil Created times equal, so ties (including
the two-nil case) are broken by ascending object name; otherwise earlier
Created first. -/
def historyLess (a b : CronHistory) : Bool :=
  match a.created, b.created with
  | none, some _ => false
  | some _, none => true
  | none, none => decide (a.object.name < b.object.name)
  | some x, some y =>
      if x = y then decide (a.object.name < b.object.name) else decide (x < y)

/-- The non-strict order realized by sorting with `historyLess`: a may stay
before b iff b is not strictly less than a. -/
def historyLE (a b : CronHistory) : Prop := historyLess b a = false

instance : DecidableRel historyLE := by
  intro a b
  exact inferInstanceAs (Decidable (historyLess b a = false))

/-- The ordering the spec describes for history (§3): ascending created time,
absent created time after all present ones, ties broken by ascending object
name. -/
def specHistOrder (a b : CronHistory) : Prop :=
  match a.created, b.created with
  | some x, some y => x < y ∨ (x = y ∧ a.object.name ≤ b.object.name)
  | some _, none => True
  | none, some _ => False
  | none, none => a.object.name ≤ b.object.name

/-- In-place update of a matched history entry (`src/unnamed/part_000` lines
297-302): copy the unique id and status from the new observation, and take
the observed finished time whenever it is non-nil. -/
def applyObserved (old nh : CronHistory) : CronHistory :=
  { old with
    uid := nh.uid
    status := nh.status
    finished := if nh.finished.isSome then nh.finished else old.finished }

/-- Point update of a list at an index (Go `cron.Status.History[idx] = ...`). -/
def modifyAt {α : Type} (l : List α) (i : Nat) (f : α → α) : List α :=
  match l, i with
  | [], _ => []
  | x :: xs, 0 => f x :: xs
  | x :: xs, Nat.succ j => x :: modifyAt xs j f

/-- The history dedup key (`src/unnamed/part_000` line 286): the entry's
object name paired with its created time in seconds (the Go code formats
them into the string "{name}-{createdUnix}"). -/
def histKey (h : CronHistory) : String × Option Int := (h.object.name, h.created)

/-- The index map over the existing history (`src/unnamed/part_000` lines
288-290).  Go map insertion lets a later duplicate key win, hence the
reversed enumeration (lookup finds the first hit). -/
def buildKeyMap (hist : List CronHistory) : List ((String × Option Int) × Nat) :=
  (hist.enum.map (fun p => (histKey p.2, p.1))).reverse

/-- Lookup in the index map. -/
def lookupIdx (m : List ((String × Option Int) × Nat)) (k : String × Option Int) :
    Option Nat :=
  (m.find? (fun p => decide (p.1 = k))).map (fun p => p.2)

/-- The fold of newly observed history entries into the existing history
(`src/unnamed/part_000` lines 292-306): a keyed match updates the entry in
place at its original index, a miss appends; the index map is built once and
not extended for appended entries, exactly as in the source. -/
def foldHistory (hist : List CronHistory) (m : List ((String × Option Int) × Nat))
    (ws : List CronHistory) : List CronHistory :=
  match ws with
  | [] => hist
  | nh :: rest =>
    match lookupIdx m (histKey nh) with
    | some idx => foldHistory (modifyAt hist idx (fun old => applyObserved old nh)) m rest
    | none => foldHistory (hist ++ [nh]) m rest

variable {σ : Type}

/-- Write a status update through the client, propagating its error
(`r.client.Status().Update(ctx, cron)`). -/
def statusUpdateStep (cl : Client σ) (s : RSt σ) : Except CycleErr Unit × RSt σ :=
  match cl.doStatusUpdate s.store s.cron with
  | (.error e, st2) => (.error (.store e), { s with store := st2 })
  | (.ok _, st2) => (.ok (), { s with store := st2 })

/-- deleteWorkload (`src/unnamed/part_000` lines 472-497): initialize an
empty workload (unsupported kind is an error), fetch by reference key;
not-found removes the reference from the active list and succeeds; any other
fetch error is returned; otherwise the reference is removed from the active
list and the Delete call is issued — a Delete error is only logged (the
result is discarded) and the SuccessfulDelete event is recorded regardless,
the function returning success. -/
def deleteWorkload (cl : Client σ) (ref : ObjectReference) (s : RSt σ) :
    Except CycleErr Unit × RSt σ :=
  match newEmptyWorkload s.cron with
  | .error e => (.error e, s)
  | .ok _ =>
    match cl.doGet s.store ref.namespc ref.name with
    | (.error .notFound, st2) =>
        (.ok (), { s with store := st2, cron := deleteFromActiveList s.cron ref.uid })
    | (.error e, st2) => (.error (.store e), { s with store := st2 })
    | (.ok _, st2) =>
        let s2 : RSt σ :=
          { s with store := st2, cron := deleteFromActiveList s.cron ref.uid }
        let dres := cl.doDelete s2.store ref.namespc ref.name
        let s3 : RSt σ := { s2 with store := dres.2 }
        (.ok (), { s3 with events := s3.events ++ [⟨.normal, "SuccessfulDelete"⟩] })

/-- The truncation loop of updateCronHistory (`src/unnamed/part_000` lines
328-338): delete the workload behind each evicted entry, aborting on a
deleteWorkload error.  The reference is rebuilt from the history entry; the
source dereferences `truncate.Object.APIGroup`, which `workloadToHistory`
always sets. -/
def truncateLoop (cl : Client σ) (ts : List CronHistory) (s : RSt σ) :
    Except CycleErr Unit × RSt σ :=
  match ts with
  | [] => (.ok (), s)
  | t :: rest =>
    let ref : ObjectReference :=
      { uid := t.uid
        kind := t.object.kind
        namespc := s.cron.namespc
        name := t.object.name
        apiVersion := t.object.apiGroup.getD "" }
    match deleteWorkload cl ref s with
    | (.error e, s2) => (.error e, s2)
    | (.ok _, s2) => truncateLoop cl rest s2

/-- Replace the history list inside a cron's status. -/
def setHistory (c : Cron) (h : List CronHistory) : Cron :=
  { c with status := { c.status with history := h } }

/-- updateCronHistory (`src/unnamed/part_000` lines 279-344): fold the
observed workloads into history by the (name, created-seconds) key, sort by
the comparator (sort.Slice only guarantees a sorted permutation; the
embedding sorts by the same comparator), and if a history limit is set and
exceeded, delete the workloads of the oldest overflow entries and drop them,
finishing with a status update.  `ptr.Deref(cron.Spec.HistoryLimit, math.MaxInt)`
makes an absent limit never trigger truncation. -/
def updateCronHistory (cl : Client σ) (ws : List Workload) (s : RSt σ) :
    Except CycleErr Unit × RSt σ :=
  let m := buildKeyMap s.cron.status.history
  let newEntries := ws.map (fun w =>
    workloadToHistory w s.cron.spec.templateAPIVersion s.cron.spec.templateKind)
  let sorted := List.insertionSort historyLE
    (foldHistory s.cron.status.history m newEntries)
  let s1 : RSt σ := { s with cron := setHistory s.cron sorted }
  let historySize := sorted.length
  match s1.cron.spec.historyLimit with
  | none => statusUpdateStep cl s1
  | some lim =>
    if historySize > lim then
      match truncateLoop cl (sorted.take (historySize - lim)) s1 with
      | (.error e, s2) => (.error e, s2)
      | (.ok _, s2) =>
          statusUpdateStep cl
            { s2 with cron := setHistory s2.cron (sorted.drop (historySize - lim)) }
    else statusUpdateStep cl s1

/-- The loop of listActiveWorkloads (`src/unnamed/part_000` lines 450-467):
an unsupported kind is logged and skipped, a not-found fetch is logged and
skipped, any other fetch error aborts, a found workload is collected. -/
def listActiveLoop (cl : Client σ) (refs : List ObjectReference)
    (acc : List Workload) (s : RSt σ) : Except CycleErr (List Workload) × RSt σ :=
  match refs with
  | [] => (.ok acc, s)
  | ref :: rest =>
    match newEmptyWorkload s.cron with
    | .error _ => listActiveLoop cl rest acc s
    | .ok _ =>
      match cl.doGet s.store ref.namespc ref.name with
      | (.error .notFound, st2) => listActiveLoop cl rest acc { s with store := st2 }
      | (.error e, st2) => (.error (.store e), { s with store := st2 })
      | (.ok w, st2) => listActiveLoop cl rest (acc ++ [w]) { s with store := st2 }

/-- listActiveWorkloads (`src/unnamed/part_000` lines 444-470). -/
def listActiveWorkloads (cl : Client σ) (s : RSt σ) :
    Except CycleErr (List Workload) × RSt σ :=
  listActiveLoop cl s.cron.status.active [] s

/-- First pass of trimFinishedWorkloadsFromActiveList (`src/unnamed/part_000`
lines 392-416) over the observed workloads.  Go's `cron` parameter is a
pointer: `cron = latestCron` rebinds only the local variable, so the model
carries the current local object `cur` plus `same`, true while the local
still aliases the caller's object held in `s.cron` (mutations are applied to
both while aliased, and only to `cur` afterwards). -/
def trimLoopObserved (cl : Client σ) (ws : List Workload) (cur : Cron)
    (same : Bool) (s : RSt σ) : Except CycleErr (Cron × Bool) × RSt σ :=
  match ws with
  | [] => (.ok (cur, same), s)
  | w :: rest =>
    let found := cur.status.active.any (fun r => r.uid = w.uid)
    let finished := (IsWorkloadFinished w).2
    if !found && !finished then
      match cl.doGetCron s.store with
      | (.error e, st2) => (.error (.store e), { s with store := st2 })
      | (.ok latest, st2) =>
        let s2 : RSt σ := { s with store := st2 }
        if inActiveList latest.status.active w then
          trimLoopObserved cl rest latest false s2
        else
          trimLoopObserved cl rest cur same
            { s2 with events := s2.events ++ [⟨.warning, "ExpectedWorkload"⟩] }
    else if found && finished then
      let cur2 := deleteFromActiveList cur w.uid
      let s2 : RSt σ :=
        if same then { s with cron := deleteFromActiveList s.cron w.uid } else s
      trimLoopObserved cl rest cur2 same
        { s2 with events := s2.events ++ [⟨.normal, "SawCompletedWorkload"⟩] }
    else
      trimLoopObserved cl rest cur same s

/-- Second pass of trimFinishedWorkloadsFromActiveList (`src/unnamed/part_000`
lines 420-439) over a snapshot of the active references (Go's range
evaluates the slice once): references whose unique id was observed are kept;
an unsupported kind is logged and skipped; a not-found direct fetch records
the MissingWorkload event and removes the reference, after which the source
unconditionally returns the fetch error; any other fetch error is returned
as-is. -/
def trimLoopActive (cl : Client σ) (known : List String)
    (refs : List ObjectReference) (cur : Cron) (same : Bool) (s : RSt σ) :
    Except CycleErr (Cron × Bool) × RSt σ :=
  match refs with
  | [] => (.ok (cur, same), s)
  | ref :: rest =>
    if known.contains ref.uid then trimLoopActive cl known rest cur same s
    else
      match newEmptyWorkload cur with
      | .error _ => trimLoopActive cl known rest cur same s
      | .ok _ =>
        match cl.doReaderGet s.store ref.namespc ref.name with
        | (.error .notFound, st2) =>
            let s2 : RSt σ :=
              { s with store := st2
                       events := s.events ++ [⟨.normal, "MissingWorkload"⟩] }
            let s3 : RSt σ :=
              if same then { s2 with cron := deleteFromActiveList s2.cron ref.uid }
              else s2
            (.error (.store .notFound), s3)
        | (.error e, st2) => (.error (.store e), { s with store := st2 })
        | (.ok _, st2) => trimLoopActive cl known rest cur same { s with store := st2 }

/-- trimFinishedWorkloadsFromActiveList (`src/unnamed/part_000` lines
387-442): the known-active unique ids are those of the observed workloads;
pass one walks the observed workloads, pass two walks the (possibly
refreshed) active references. -/
def trimFinishedWorkloadsFromActiveList (cl : Client σ) (ws : List Workload)
    (s : RSt σ) : Except CycleErr Unit × RSt σ :=
  let known := ws.map (fun w => w.uid)
  match trimLoopObserved cl ws s.cron true s with
  | (.error e, s2) => (.error e, s2)
  | (.ok (cur, same), s2) =>
    match trimLoopActive cl known cur.status.active cur same s2 with
    | (.error e, s3) => (.error e, s3)
    | (.ok _, s3) => (.ok (), s3)

/-- Insert-or-update of one label key (Go `labels[common.LabelCronName] = cron.Name`). -/
def upsertLabel (ls : List (String × String)) (k v : String) :
    List (String × String) :=
  if ls.any (fun p => p.1 = k) then ls.map (fun p => if p.1 = k then (k, v) else p)
  else ls ++ [(k, v)]

/-- Replace the concurrency policy inside a cron's spec. -/
def setPolicy (c : Cron) (p : ConcurrencyPolicy) : Cron :=
  { c with spec := { c.spec with concurrencyPolicy := p } }

/-- newWorkloadFromTemplate (`src/unnamed/part_000` lines 346-385): build the
template object; forcibly empty a non-empty generateName; default an empty
name from the cron name and firing time, while an explicitly specified name
records the OverridePolicy event and overrides the in-memory cron's
concurrency policy to Forbid; then set namespace, the cron-name label and
the controller owner reference. -/
def newWorkloadFromTemplate (scheduleTime : Int) (s : RSt σ) :
    Except CycleErr Workload × RSt σ :=
  match newEmptyWorkload s.cron with
  | .error e => (.error e, s)
  | .ok w0 =>
    let w1 := if w0.generateName ≠ "" then { w0 with generateName := "" } else w0
    let named :=
      if w1.name = "" then
        ({ w1 with name := getDefaultJobName s.cron scheduleTime }, s)
      else
        (w1, { s with events := s.events ++ [⟨.normal, "OverridePolicy"⟩]
                      cron := setPolicy s.cron .forbid })
    let w2 := named.1
    let s2 := named.2
    let w3 : Workload :=
      { w2 with namespc := s2.cron.namespc
                labels := upsertLabel w2.labels LabelCronName s2.cron.name
                ownerCronUID := some s2.cron.uid }
    (.ok w3, s2)

/-- reference.GetReference on a created workload (`src/unnamed/part_000`
lines 264-267). -/
def workloadRef (w : Workload) : ObjectReference :=
  { kind := w.kind
    apiVersion := w.apiVersion
    namespc := w.namespc
    name := w.name
    uid := w.uid }

/-- The Replace-policy deletion loop (`src/unnamed/part_000` lines 238-245)
over a snapshot of the active references, aborting on a deleteWorkload
error. -/
def replaceDeleteLoop (cl : Client σ) (refs : List ObjectReference) (s : RSt σ) :
    Except CycleErr Unit × RSt σ :=
  match refs with
  | [] => (.ok (), s)
  | ref :: rest =>
    match deleteWorkload cl ref s with
    | (.error e, s2) => (.error e, s2)
    | (.ok _, s2) => replaceDeleteLoop cl rest s2

/-- Append a reference to the active list and advance LastScheduleTime
(`src/unnamed/part_000` lines 270-271). -/
def recordCreated (c : Cron) (ref : ObjectReference) (t : Int) : Cron :=
  { c with status :=
      { c.status with active := c.status.active ++ [ref]
                      lastScheduleTime := some t } }

/-- scheduleNextIfPossible (`src/unnamed/part_000` lines 194-277): a schedule
parse failure records the InvalidSchedule warning and returns neither an
error nor a hint; with no unmet time, or a most recent due time equal to
LastScheduleTime, only the wakeup hint is returned; Forbid with a non-empty
active list records AlreadyActive and returns the hint; Replace first
deletes every active reference; the template workload is then built and
created — an already-exists create error returns that error directly when
the workload is tracked in the active list and records FailedCreate before
returning it otherwise (any other create error also records FailedCreate
and aborts); a successful create records SuccessfulCreate, appends the
reference, advances LastScheduleTime, persists status and returns the
hint. -/
def scheduleNextIfPossible (cl : Client σ) (env : SchedEnv) (now : Int)
    (s : RSt σ) : Except CycleErr (Option Int) × RSt σ :=
  match env.parse s.cron.spec.schedule with
  | none => (.ok none, { s with events := s.events ++ [⟨.warning, "InvalidSchedule"⟩] })
  | some sched =>
    match getNextScheduleTime sched s.cron now with
    | (none, evs) =>
        (.ok (nextScheduledTimeDuration sched now),
         { s with events := s.events ++ evs })
    | (some t, evs) =>
      let s1 : RSt σ := { s with events := s.events ++ evs }
      if s1.cron.status.lastScheduleTime = some t then
        (.ok (nextScheduledTimeDuration sched now), s1)
      else if s1.cron.spec.concurrencyPolicy = .forbid ∧ s1.cron.status.active ≠ [] then
        (.ok (nextScheduledTimeDuration sched now),
         { s1 with events := s1.events ++ [⟨.normal, "AlreadyActive"⟩] })
      else
        let afterReplace :=
          if s1.cron.spec.concurrencyPolicy = .replace then
            replaceDeleteLoop cl s1.cron.status.active s1
          else (.ok (), s1)
        match afterReplace with
        | (.error e, s2) => (.error e, s2)
        | (.ok _, s2) =>
          match newWorkloadFromTemplate t s2 with
          | (.error e, s3) => (.error e, s3)
          | (.ok w, s3) =>
            match cl.doCreate s3.store w with
            | (.error .alreadyExists, st2) =>
              let s4 : RSt σ := { s3 with store := st2 }
              if inActiveList s4.cron.status.active w then
                (.error (.store .alreadyExists), s4)
              else
                (.error (.store .alreadyExists),
                 { s4 with events := s4.events ++ [⟨.warning, "FailedCreate"⟩] })
            | (.error e, st2) =>
              (.error (.store e),
               { s3 with store := st2
                         events := s3.events ++ [⟨.warning, "FailedCreate"⟩] })
            | (.ok created, st2) =>
              let ref := workloadRef created
              let s4 : RSt σ :=
                { s3 with store := st2
                          events := s3.events ++ [⟨.normal, "SuccessfulCreate"⟩]
                          cron := recordCreated s3.cron ref t }
              match cl.doStatusUpdate s4.store s4.cron with
              | (.error e, st3) => (.error (.store e), { s4 with store := st3 })
              | (.ok _, st3) =>
                  (.ok (nextScheduledTimeDuration sched now), { s4 with store := st3 })

/-- syncCron (`src/unnamed/part_000` lines 153-192): trim the active list,
persist status, then stop on deletion, suspension, or a passed deadline
(recording the Deadline event), else schedule the next workload. -/
def syncCron (cl : Client σ) (env : SchedEnv) (now : Int) (ws : List Workload)
    (s : RSt σ) : Except CycleErr (Option Int) × RSt σ :=
  match trimFinishedWorkloadsFromActiveList cl ws s with
  | (.error e, s2) => (.error e, s2)
  | (.ok _, s2) =>
    match statusUpdateStep cl s2 with
    | (.error e, s3) => (.error e, s3)
    | (.ok _, s3) =>
      if s3.cron.deletionTimestamp ≠ none then (.ok none, s3)
      else if s3.cron.spec.suspend = some true then (.ok none, s3)
      else
        match s3.cron.spec.deadline with
        | some d =>
          if now > d then
            (.ok none, { s3 with events := s3.events ++ [⟨.normal, "Deadline"⟩] })
          else scheduleNextIfPossible cl env now s3
        | none => scheduleNextIfPossible cl env now s3

/-- Reconcile (`src/unnamed/part_000` lines 119-151): fetch the cron (a
not-found fetch ends the cycle without error), list the active workloads,
fold them into history, and run syncCron; the returned option is the
RequeueAfter duration. -/
def reconcile (cl : Client σ) (env : SchedEnv) (now : Int) (st : σ)
    (initCron : Cron) : Except CycleErr (Option Int) × RSt σ :=
  match cl.doGetCron st with
  | (.error .notFound, st2) => (.ok none, ⟨st2, initCron, []⟩)
  | (.error e, st2) => (.error (.store e), ⟨st2, initCron, []⟩)
  | (.ok c, st2) =>
    let s0 : RSt σ := ⟨st2, c, []⟩
    match listActiveWorkloads cl s0 with
    | (.error e, s1) => (.error e, s1)
    | (.ok ws, s1) =>
      match updateCronHistory cl ws s1 with
      | (.error e, s2) => (.error e, s2)
      | (.ok _, s2) => syncCron cl env now ws s2

/-- An operational in-memory store: the persisted Cron resource, the workload
objects keyed by (namespace, name), a unique-id counter and the server clock
stamped onto created objects. -/
structure OpStore where
  cron : Cron
  objs : List Workload
  nextUid : Nat
  clock : Int
deriving DecidableEq

/-- Lookup of a workload object by (namespace, name). -/
def findObj (objs : List Workload) (ns n : String) : Option Workload :=
  objs.find? (fun w => w.namespc = ns ∧ w.name = n)

/-- The resource-store semantics of §6 over `OpStore`: get/create/delete by
key with distinguishable not-found and already-exists outcomes, creation
assigning a fresh unique id and the server creation timestamp, and status
update persisting only the status sub-document. -/
def opClient : Client OpStore :=
  { doGetCron := fun st => (.ok st.cron, st)
    doGet := fun st ns n =>
      match findObj st.objs ns n with
      | some w => (.ok w, st)
      | none => (.error .notFound, st)
    doReaderGet := fun st ns n =>
      match findObj st.objs ns n with
      | some w => (.ok w, st)
      | none => (.error .notFound, st)
    doCreate := fun st w =>
      match findObj st.objs w.namespc w.name with
      | some _ => (.error .alreadyExists, st)
      | none =>
        let w2 : Workload :=
          { w with uid := "u" ++ toString st.nextUid
                   creationTimestamp := some st.clock }
        (.ok w2, { st with objs := st.objs ++ [w2], nextUid := st.nextUid + 1 })
    doDelete := fun st ns n =>
      match findObj st.objs ns n with
      | some _ =>
          let rest := st.objs.filter (fun w => ¬(w.namespc = ns ∧ w.name = n))
          (.ok (), { st with objs := rest })
      | none => (.error .notFound, st)
    doStatusUpdate := fun st c =>
      (.ok (), { st with cron := { st.cron with status := c.status } }) }

/-- A static result oracle used to inject store errors: every call's outcome
is a fixed function of its arguments. -/
structure Oracle where
  cronRes : Except StoreErr Cron
  getRes : String → String → Except StoreErr Workload
  readerGetRes : String → String → Except StoreErr Workload
  createRes : Workload → Except StoreErr Workload
  deleteRes : String → String → Except StoreErr Unit
  statusRes : Except StoreErr Unit

/-- The client over a static oracle (the store state never changes). -/
def oracleClient : Client Oracle :=
  { doGetCron := fun st => (st.cronRes, st)
    doGet := fun st ns n => (st.getRes ns n, st)
    doReaderGet := fun st ns n => (st.readerGetRes ns n, st)
    doCreate := fun st w => (st.createRes w, st)
    doDelete := fun st ns n => (st.deleteRes ns n, st)
    doStatusUpdate := fun st _ => (st.statusRes, st) }

/-- A client over a unit state whose every call fails with an unclassified
error; used to instantiate claims whose statements never reach the store. -/
def unitClient : Client Unit :=
  { doGetCron := fun st => (.error .other, st)
    doGet := fun st _ _ => (.error .other, st)
    doReaderGet := fun st _ _ => (.error .other, st)
    doCreate := fun st _ => (.error .other, st)
    doDelete := fun st _ _ => (.error .other, st)
    doStatusUpdate := fun st _ => (.error .other, st) }

/-- A concrete recurrence rule whose next-occurrence primitive jumps 5
ahead. -/
def sched5 : Sched := { next := fun t => t + 5 }

/-- An environment that parses the expression "good" to `sched5` and fails
on everything else. -/
def envG : SchedEnv :=
  { parse := fun s => if s = "good" then some sched5 else none }

/-- A baseline Cron spec: TFJob template with no explicit name, Allow
policy, no suspension, deadline or history limit. -/
def baseSpec : CronSpec :=
  { schedule := "good"
    templateAPIVersion := "kubeflow.org/v1"
    templateKind := "TFJob"
    templateName := ""
    templateGenerateName := ""
    templateLabels := []
    concurrencyPolicy := .allow
    suspend := none
    deadline := none
    historyLimit := none }

/-- A baseline Cron resource with empty status. -/
def baseCron : Cron :=
  { name := "demo"
    namespc := "ns"
    uid := "cronuid"
    creationTimestamp := 0
    deletionTimestamp := none
    spec := baseSpec
    status := { active := [], history := [], lastScheduleTime := none } }

/-- An oracle whose calls all fail with an unclassified error; scenario
oracles override the calls they exercise. -/
def baseOracle : Oracle :=
  { cronRes := .error .other
    getRes := fun _ _ => .error .other
    readerGetRes := fun _ _ => .error .other
    createRes := fun _ => .error .other
    deleteRes := fun _ _ => .error .other
    statusRes := .error .other }

/-- C1 scenario cron: the template specifies the explicit name "myjob" and a
reference of that name and namespace is already tracked in the active
list. -/
def cronC1 : Cron :=
  { baseCron with
    spec := { baseSpec with templateName := "myjob" }
    status :=
      { active := [{ kind := "TFJob", apiVersion := "kubeflow.org/v1",
                     namespc := "ns", name := "myjob", uid := "u1" }]
        history := []
        lastScheduleTime := none } }

/-- C1 scenario oracle: creation fails with "already exists". -/
def oracleC1 : Oracle := { baseOracle with createRes := fun _ => .error .alreadyExists }

/-- C1 scenario initial reconciler state. -/
def sC1 : RSt Oracle := ⟨oracleC1, cronC1, []⟩

/-- The workload scheduleNextIfPossible builds and tries to create in the C1
scenario. -/
def wC1 : Workload :=
  { apiVersion := "kubeflow.org/v1"
    kind := "TFJob"
    name := "myjob"
    generateName := ""
    namespc := "ns"
    uid := ""
    labels := [(LabelCronName, "demo")]
    ownerCronUID := some "cronuid"
    creationTimestamp := none
    condition := none
    finishedAt := none }

/-- C2 scenario: the single currently active reference. -/
def refOld : ObjectReference :=
  { kind := "TFJob", apiVersion := "kubeflow.org/v1", namespc := "ns",
    name := "old", uid := "uo" }

/-- C2 scenario: the still-running workload behind the active reference. -/
def wOld : Workload :=
  { apiVersion := "kubeflow.org/v1"
    kind := "TFJob"
    name := "old"
    generateName := ""
    namespc := "ns"
    uid := "uo"
    labels := []
    ownerCronUID := some "cronuid"
    creationTimestamp := some 1
    condition := some .running
    finishedAt := none }

/-- C2 scenario cron: Replace policy with one active reference. -/
def cronC2 : Cron :=
  { baseCron with
    spec := { baseSpec with concurrencyPolicy := .replace }
    status := { active := [refOld], history := [], lastScheduleTime := none } }

/-- C2 scenario oracle: the active workload is fetchable, its deletion fails
with an unclassified store error, creation and status update succeed. -/
def oracleC2 : Oracle :=
  { baseOracle with
    getRes := fun ns n => if ns = "ns" ∧ n = "old" then .ok wOld else .error .notFound
    deleteRes := fun _ _ => .error .other
    createRes := fun w => .ok { w with uid := "unew", creationTimestamp := some 3 }
    statusRes := .ok () }

/-- C2 scenario initial reconciler state. -/
def sC2 : RSt Oracle := ⟨oracleC2, cronC2, []⟩

/-- C3 scenario: the recorded active reference whose object is gone. -/
def refGone : ObjectReference :=
  { kind := "TFJob", apiVersion := "kubeflow.org/v1", namespc := "ns",
    name := "gone", uid := "ug" }

/-- C3 scenario cron: one recorded active reference, nothing observed. -/
def cronC3 : Cron :=
  { baseCron with
    status := { active := [refGone], history := [], lastScheduleTime := some 5 } }

/-- C3 scenario oracle: the direct (reader) fetch reports not-found. -/
def oracleC3 : Oracle := { baseOracle with readerGetRes := fun _ _ => .error .notFound }

/-- C3 scenario initial reconciler state. -/
def sC3 : RSt Oracle := ⟨oracleC3, cronC3, []⟩

/-- C4 scenario: an existing history entry whose finished time is already
non-empty (10). -/
def histC4 : CronHistory :=
  { uid := "x"
    object := { apiGroup := some "kubeflow.org/v1", kind := "TFJob", name := "demo-5" }
    status := .running
    created := some 3
    finished := some 10 }

/-- C4 scenario: a newly observed workload with the same (name,
created-seconds) key but a different non-empty finished time (20). -/
def wObsC4 : Workload :=
  { apiVersion := "kubeflow.org/v1"
    kind := "TFJob"
    name := "demo-5"
    generateName := ""
    namespc := "ns"
    uid := "u9"
    labels := []
    ownerCronUID := some "cronuid"
    creationTimestamp := some 3
    condition := some .succeeded
    finishedAt := some 20 }

/-- C4 scenario cron: the history holds the matching entry. -/
def cronC4 : Cron :=
  { baseCron with
    status := { active := [], history := [histC4], lastScheduleTime := some 5 } }

/-- C4 scenario oracle: only the status update is exercised. -/
def oracleC4 : Oracle := { baseOracle with statusRes := .ok () }

/-- C4 scenario initial reconciler state. -/
def sC4 : RSt Oracle := ⟨oracleC4, cronC4, []⟩

/-- C6 scenario: the older history entry, due for eviction under limit 1. -/
def histOldC6 : CronHistory :=
  { uid := "h1"
    object := { apiGroup := some "kubeflow.org/v1", kind := "TFJob", name := "w1" }
    status := .succeeded
    created := some 1
    finished := some 2 }

/-- C6 scenario: the newer history entry, retained under limit 1. -/
def histNewC6 : CronHistory :=
  { uid := "h2"
    object := { apiGroup := some "kubeflow.org/v1", kind := "TFJob", name := "w2" }
    status := .succeeded
    created := some 2
    finished := some 3 }

/-- C6 scenario: the external workload object behind the evicted entry,
still present in the store. -/
def wStaleC6 : Workload :=
  { apiVersion := "kubeflow.org/v1"
    kind := "TFJob"
    name := "w1"
    generateName := ""
    namespc := "ns"
    uid := "h1"
    labels := []
    ownerCronUID := some "cronuid"
    creationTimestamp := some 1
    condition := some .succeeded
    finishedAt := some 2 }

/-- C6 scenario cron: history limit 1 with two recorded entries. -/
def cronC6 : Cron :=
  { baseCron with
    spec := { baseSpec with historyLimit := some 1 }
    status := { active := [], history := [histOldC6, histNewC6],
                lastScheduleTime := some 5 } }

/-- C6 scenario oracle: the evicted entry's object is fetchable, its
deletion fails with an unclassified store error, status update succeeds. -/
def oracleC6 : Oracle :=
  { baseOracle with
    getRes := fun ns n => if ns = "ns" ∧ n = "w1" then .ok wStaleC6 else .error .notFound
    deleteRes := fun _ _ => .error .other
    statusRes := .ok () }

/-- C6 scenario initial reconciler state. -/
def sC6 : RSt Oracle := ⟨oracleC6, cronC6, []⟩

/-- C7 scenario: the initial operational store holding the baseline cron and
no workload objects. -/
def opSt0 : OpStore := { cron := baseCron, objs := [], nextUid := 0, clock := 3 }

/-- C7 scenario: the first full cycle at now = 5. -/
def c7run1 : Except CycleErr (Option Int) × RSt OpStore :=
  reconcile opClient envG 5 opSt0 baseCron

/-- C7 scenario: the second full cycle at now = 5 over the store the first
cycle left, with no intervening external change. -/
def c7run2 : Except CycleErr (Option Int) × RSt OpStore :=
  reconcile opClient envG 5 c7run1.2.store baseCron

/-- C7 witness cron: last-fired time 5 already equals the most recent due
occurrence by now = 7 (the next occurrence, 10, is past 7). -/
def cronC7w : Cron :=
  { baseCron with
    status := { active := [], history := [], lastScheduleTime := some 5 } }

/-- C7 witness initial reconciler state. -/
def sC7w : RSt Unit := ⟨(), cronC7w, []⟩

/-- C8 scenario cron: Allow policy declared, template with the explicit name
"fixedjob". -/
def cronC8 : Cron := { baseCron with spec := { baseSpec with templateName := "fixedjob" } }

/-- C8 scenario: the initial operational store. -/
def opSt8 : OpStore := { cron := cronC8, objs := [], nextUid := 0, clock := 3 }

/-- C8 scenario: the first full cycle at now = 5 (first due time). -/
def c8run1 : Except CycleErr (Option Int) × RSt OpStore :=
  reconcile opClient envG 5 opSt8 baseCron

/-- C8 scenario: the second full cycle at now = 10 (the consecutive due
time), over the store the first cycle left. -/
def c8run2 : Except CycleErr (Option Int) × RSt OpStore :=
  reconcile opClient envG 10 c8run1.2.store baseCron

/-- C9 witness cron: a schedule expression the parser rejects. -/
def cronC9 : Cron := { baseCron with spec := { baseSpec with schedule := "bad" } }

/-- C9 witness initial reconciler state. -/
def sC9 : RSt Unit := ⟨(), cronC9, []⟩

/-- C10 witness cron: template with a non-empty generateName and no explicit
name. -/
def cronC10 : Cron := { baseCron with spec := { baseSpec with templateGenerateName := "gen-" } }

/-- C10 witness initial reconciler state. -/
def sC10 : RSt Unit := ⟨(), cronC10, []⟩

/-- C10 witness: the workload newWorkloadFromTemplate builds from `cronC10`
at firing time 5 — generateName emptied, name defaulted. -/
def wC10 : Workload :=
  { apiVersion := "kubeflow.org/v1"
    kind := "TFJob"
    name := "demo-5"
    generateName := ""
    namespc := "ns"
    uid := ""
    labels := [(LabelCronName, "demo")]
    ownerCronUID := some "cronuid"
    creationTimestamp := none
    condition := none
    finishedAt := none }

/-- C4 witness: a history entry with no finished time yet. -/
def histPlain : CronHistory :=
  { uid := "p"
    object := { apiGroup := some "kubeflow.org/v1", kind := "TFJob", name := "p" }
    status := .running
    created := some 1
    finished := none }

/-- The comparator is asymmetric: a strict win one way forbids one the other
way (this is what makes sorting by it well behaved). -/
theorem historyLess_asymm (a b : CronHistory) (h : historyLess a b = true) :
    historyLess b a = false := by
  obtain ⟨ua, oa, sa, ca, fa⟩ := a
  obtain ⟨ub, ob2, sb, cb, fb⟩ := b
  rcases ca with _ | x <;> rcases cb with _ | y <;>
      simp [historyLess] at h ⊢
  · exact le_of_lt h
  · by_cases hxy : x = y
    · subst hxy
      rw [if_pos rfl] at h
      rw [if_pos rfl]
      exact le_of_lt h
    · rw [if_neg hxy] at h
      rw [if_neg (fun hh => hxy hh.symm)]
      omega

/-- The negation of the comparator is transitive. -/
theorem historyLess_negtrans (a b c : CronHistory) (hba : historyLess b a = false)
    (hcb : historyLess c b = false) : historyLess c a = false := by
  obtain ⟨ua, oa, sa, ca, fa⟩ := a
  obtain ⟨ub, ob2, sb, cb, fb⟩ := b
  obtain ⟨uc, oc, sc, cc, fc⟩ := c
  rcases ca with _ | x <;> rcases cb with _ | y <;> rcases cc with _ | z <;>
      simp [historyLess] at hba hcb ⊢
  · exact le_trans hba hcb
  · by_cases hyx : y = x <;> by_cases hzy : z = y
    · subst hyx
      subst hzy
      rw [if_pos rfl] at hba hcb ⊢
      exact le_trans hba hcb
    · subst hyx
      rw [if_pos rfl] at hba
      rw [if_neg hzy] at hcb
      rw [if_neg hzy]
      exact hcb
    · subst hzy
      rw [if_neg hyx] at hba ⊢
      rw [if_pos rfl] at hcb
      exact hba
    · rw [if_neg hyx] at hba
      rw [if_neg hzy] at hcb
      by_cases hzx : z = x
      · rw [if_pos hzx]
        exact ((by omega : False)).elim
      · rw [if_neg hzx]
        omega

instance : IsTotal CronHistory historyLE := by
  constructor
  intro a b
  by_cases h : historyLess b a = true
  · right
    exact historyLess_asymm b a h
  · left
    exact eq_false_of_ne_true h

instance : IsTrans CronHistory historyLE := by
  constructor
  intro a b c hab hbc
  exact historyLess_negtrans a b c hab hbc

/-- Sorting weakly by the source comparator yields exactly the ordering the
spec describes for history. -/
theorem historyLE_specHistOrder (a b : CronHistory) (h : historyLE a b) :
    specHistOrder a b := by
  obtain ⟨ua, oa, sa, ca, fa⟩ := a
  obtain ⟨ub, ob2, sb, cb, fb⟩ := b
  unfold historyLE at h
  rcases ca with _ | x <;> rcases cb with _ | y <;>
      simp [historyLess, specHistOrder] at h ⊢
  · exact h
  · by_cases hyx : y = x
    · subst hyx
      rw [if_pos rfl] at h
      right
      exact ⟨rfl, h⟩
    · rw [if_neg hyx] at h
      left
      omega

/-- deleteWorkload never touches the history list (it only mutates the
active list, the store and the events). -/
theorem deleteWorkload_history (cl : Client σ) (ref : ObjectReference) (s : RSt σ) :
    ((deleteWorkload cl ref s).2).cron.status.history = s.cron.status.history := by
  unfold deleteWorkload
  cases hne : newEmptyWorkload s.cron with
  | error e => rfl
  | ok w =>
    rcases hget : cl.doGet s.store ref.namespc ref.name with ⟨res, st2⟩
    cases res with
    | error e => cases e <;> simp [deleteFromActiveList]
    | ok w2 => simp [deleteFromActiveList]

/-- The truncation loop never touches the history list. -/
theorem truncateLoop_history (cl : Client σ) (ts : List CronHistory) (s : RSt σ) :
    ((truncateLoop cl ts s).2).cron.status.history = s.cron.status.history := by
  induction ts generalizing s with
  | nil => rfl
  | cons t rest ih =>
    unfold truncateLoop
    rcases hd : deleteWorkload cl
        { uid := t.uid, kind := t.object.kind, namespc := s.cron.namespc,
          name := t.object.name, apiVersion := t.object.apiGroup.getD "" } s with ⟨res, s2⟩
    have hh := deleteWorkload_history cl
        { uid := t.uid, kind := t.object.kind, namespc := s.cron.namespc,
          name := t.object.name, apiVersion := t.object.apiGroup.getD "" } s
    rw [hd] at hh
    cases res with
    | error e => simpa [hd] using hh
    | ok u => simp only [hd]; rw [ih s2]; exact hh

/-- A status-update step never changes the in-memory cron. -/
theorem statusUpdateStep_cron (cl : Client σ) (s : RSt σ) :
    ((statusUpdateStep cl s).2).cron = s.cron := by
  unfold statusUpdateStep
  rcases cl.doStatusUpdate s.store s.cron with ⟨res, st2⟩
  cases res <;> rfl

/-- Insertion sort by the source comparator produces a list pairwise ordered
the way the spec describes. -/
theorem pairwise_insertionSorted (l : List CronHistory) :
    List.Pairwise specHistOrder (List.insertionSort historyLE l) :=
  (List.sorted_insertionSort historyLE l).imp
    (by intro a b h; exact historyLE_specHistOrder a b h)

/-- C1 (code evaluation at the failing input): when the store answers the
create call with "already exists" and the workload IS tracked in the active
list (it matches the recorded reference, and no FailedCreate event is
recorded, showing the tracked branch of `src/unnamed/part_000` lines 252-259
was taken), scheduleNextIfPossible still returns the already-exists error —
the cycle aborts instead of treating the replay as a success as the claim
(and the source's own comment) states. -/
theorem c1_alreadyExists_tracked_still_errors :
    (newWorkloadFromTemplate 5 sC1).1 = .ok wC1 ∧
    inActiveList cronC1.status.active wC1 = true ∧
    (scheduleNextIfPossible oracleClient envG 5 sC1).1 = .error (.store .alreadyExists) ∧
    (scheduleNextIfPossible oracleClient envG 5 sC1).2.events.filter
      (fun e => e.reason = "FailedCreate") = [] := by
  decide

/-- C2 (code evaluation at the failing input): under the Replace policy with
one active reference whose Delete call fails, deleteWorkload swallows the
failure (recording SuccessfulDelete regardless), the cycle does NOT abort,
and creation proceeds: the run succeeds with the new reference as the only
active entry — contradicting the claim that any deletion failure aborts the
cycle before creation. -/
theorem c2_replace_delete_failure_not_aborting :
    oracleC2.deleteRes "ns" "old" = .error .other ∧
    (scheduleNextIfPossible oracleClient envG 5 sC2).1 = .ok (some 5) ∧
    (scheduleNextIfPossible oracleClient envG 5 sC2).2.events =
      [⟨.normal, "SuccessfulDelete"⟩, ⟨.normal, "SuccessfulCreate"⟩] ∧
    (scheduleNextIfPossible oracleClient envG 5 sC2).2.cron.status.active.map
      (fun r => r.uid) = ["unew"] := by
  decide

/-- C3 (code evaluation at the failing input): for a recorded active
reference whose direct fetch reports not-found, one pass of
trimFinishedWorkloadsFromActiveList removes the reference and records the
MissingWorkload event but then STILL returns the not-found error
(`src/unnamed/part_000` line 437 is outside the not-found branch), aborting
the cycle before the removal can be persisted — contradicting the claim
that a not-found fetch only removes the reference and signals. -/
theorem c3_missing_active_removal_still_errors :
    (trimFinishedWorkloadsFromActiveList oracleClient [] sC3).1 =
      .error (.store .notFound) ∧
    (trimFinishedWorkloadsFromActiveList oracleClient [] sC3).2.events =
      [⟨.normal, "MissingWorkload"⟩] ∧
    (trimFinishedWorkloadsFromActiveList oracleClient [] sC3).2.cron.status.active = [] := by
  decide

/-- C4 counterexample: the history fold overwrites a non-empty finished time
(10) with the newly observed non-empty finished time (20) for the matching
(name, created-seconds) key, refuting the claim's "set-once: never
overwrite a non-empty finished time". -/
theorem c4_counterexample_finished_overwritten :
    cronC4.status.history.map (fun h => h.finished) = [some 10] ∧
    (updateCronHistory oracleClient [wObsC4] sC4).1 = .ok () ∧
    (updateCronHistory oracleClient [wObsC4] sC4).2.cron.status.history.map
      (fun h => h.finished) = [some 20] := by
  decide

/-- C4 (amended): the keyed in-place history update changes only the unique
id, the terminal status and the finished time — the created time and object
reference are never changed — and the finished time is updated exactly when
the newly observed finished time is non-empty: a non-empty finished time is
never cleared back to empty, but it can be overwritten by a different
non-empty observed value. -/
theorem c4_amended_history_update_frame (old nh : CronHistory) :
    (applyObserved old nh).created = old.created ∧
    (applyObserved old nh).object = old.object ∧
    (applyObserved old nh).uid = nh.uid ∧
    (applyObserved old nh).status = nh.status ∧
    (applyObserved old nh).finished =
      (if nh.finished.isSome then nh.finished else old.finished) ∧
    ((applyObserved old nh).finished = none → old.finished = none) := by
  refine ⟨rfl, rfl, rfl, rfl, rfl, ?_⟩
  intro h
  have h2 : (if nh.finished.isSome then nh.finished else old.finished) = none := h
  cases hf : nh.finished with
  | some v => rw [hf] at h2; simp at h2
  | none => rw [hf] at h2; simpa using h2

/-- C4 amended-theorem witness at a concrete entry, including discharging
the never-cleared implication where the observed finished time is empty. -/
theorem c4_amended_history_update_frame_witness :
    (applyObserved histPlain histPlain).created = histPlain.created ∧
    (applyObserved histPlain histPlain).uid = histPlain.uid ∧
    histPlain.finished = none :=
  ⟨(c4_amended_history_update_frame histPlain histPlain).1,
   (c4_amended_history_update_frame histPlain histPlain).2.2.1,
   (c4_amended_history_update_frame histPlain histPlain).2.2.2.2.2 (by decide)⟩

/-- C5: after every history fold — on every control path of
updateCronHistory, including truncation and error aborts — the stored
history is pairwise ordered as the spec describes: ascending created time,
entries with an absent created time after all entries with one, ties broken
by ascending object name. -/
theorem c5_history_sorted (cl : Client σ) (ws : List Workload) (s : RSt σ) :
    List.Pairwise specHistOrder ((updateCronHistory cl ws s).2.cron.status.history) := by
  unfold updateCronHistory
  dsimp only [setHistory]
  split
  · rw [statusUpdateStep_cron]
    exact pairwise_insertionSorted _
  · split
    · split
      · rename_i e s2 heq
        have hh := congrArg (fun p => (Prod.snd p).cron.status.history) heq
        dsimp only at hh
        rw [truncateLoop_history] at hh
        rw [← hh]
        exact pairwise_insertionSorted _
      · rename_i u s2 heq
        rw [statusUpdateStep_cron]
        dsimp only [setHistory]
        exact List.Pairwise.sublist (List.drop_sublist _ _) (pairwise_insertionSorted _)
    · rw [statusUpdateStep_cron]
      exact pairwise_insertionSorted _

/-- C6 (code evaluation at the failing input): with history limit 1 and two
entries, the eviction of the oldest entry proceeds even though the Delete
call for its workload fails (the failure is swallowed inside deleteWorkload
and SuccessfulDelete recorded): the fold returns success and the entry is
dropped from history despite the failed deletion — contradicting the claim
that a deletion failure is surfaced as a cycle error and the entry
retained. -/
theorem c6_truncation_delete_failure_entry_dropped :
    oracleC6.deleteRes "ns" "w1" = .error .other ∧
    (updateCronHistory oracleClient [] sC6).1 = .ok () ∧
    (updateCronHistory oracleClient [] sC6).2.cron.status.history.map
      (fun h => h.object.name) = ["w2"] ∧
    (updateCronHistory oracleClient [] sC6).2.events = [⟨.normal, "SuccessfulDelete"⟩] := by
  decide

/-- C7 counterexample: two successive full cycles with no intervening
external change do NOT leave the same persisted state — the first cycle
creates a workload (after it, history is empty), and the second cycle folds
that workload into history (history then has one entry), although the
second cycle creates nothing (the store objects are unchanged) and adds no
duplicate entries. -/
theorem c7_counterexample_second_cycle_changes_state :
    c7run1.1 = .ok (some 5) ∧
    c7run2.1 = .ok (some 5) ∧
    c7run1.2.store.cron.status.history = [] ∧
    c7run2.2.store.cron.status.history.length = 1 ∧
    c7run2.2.store.cron.status ≠ c7run1.2.store.cron.status ∧
    c7run2.2.store.objs = c7run1.2.store.objs := by
  decide

/-- C7 (amended): when the most recent due occurrence equals the recorded
last-fired time — last-fired is `some t` and the rule's next occurrence
after `t` is past `now`, so `t` is the most recent occurrence and has
already been fired — the cycle creates nothing, changes neither the cron
nor the store nor the events, and only returns the next-wakeup hint. -/
theorem c7_amended_no_retrigger_when_last_fired_current (cl : Client σ)
    (env : SchedEnv) (now : Int) (s : RSt σ) (sched : Sched) (t : Int)
    (hp : env.parse s.cron.spec.schedule = some sched)
    (hl : s.cron.status.lastScheduleTime = some t)
    (hn : now < sched.next t) :
    scheduleNextIfPossible cl env now s =
      (.ok (nextScheduledTimeDuration sched now), s) := by
  have hstep : collectMissed sched.next now (Nat.succ 100) t =
      (if sched.next t ≤ now then
        sched.next t :: collectMissed sched.next now 100 (sched.next t) else []) := rfl
  have hc : collectMissed sched.next now 101 t = [] := by
    rw [(rfl : (101 : Nat) = Nat.succ 100), hstep, if_neg (by omega)]
  have hg : getNextScheduleTime sched s.cron now = (none, []) := by
    unfold getNextScheduleTime
    rw [hl]
    simp only [Option.getD, hc]
    rfl
  unfold scheduleNextIfPossible
  rw [hp]
  dsimp only
  rw [hg]
  dsimp only
  simp

/-- C7 amended-theorem witness: last fired at 5, now 7, next occurrence 10 —
the cycle only returns the hint and leaves the state untouched. -/
theorem c7_amended_no_retrigger_when_last_fired_current_witness :
    envG.parse cronC7w.spec.schedule = some sched5 ∧
    cronC7w.status.lastScheduleTime = some 5 ∧
    (7 : Int) < sched5.next 5 ∧
    scheduleNextIfPossible unitClient envG 7 sC7w =
      (.ok (nextScheduledTimeDuration sched5 7), sC7w) :=
  ⟨rfl, rfl, by decide,
   c7_amended_no_retrigger_when_last_fired_current unitClient envG 7 sC7w sched5 5
     rfl rfl (by decide)⟩

/-- C8 (code evaluation at the failing input): a template with an explicit
name under a declared Allow policy.  The first cycle creates the fixed-name
workload; the persisted spec still declares Allow (the Forbid override at
`src/unnamed/part_000` line 367 happens after the concurrency gate and only
on the in-memory copy, which the status update never persists), so the
second cycle at the next due time does NOT skip via the Forbid gate (no
AlreadyActive event) even though the override event fires again — it
attempts creation and aborts with the already-exists error. -/
theorem c8_fixed_name_override_ineffective :
    c8run1.1 = .ok (some 5) ∧
    c8run1.2.store.cron.status.active.length = 1 ∧
    c8run1.2.store.cron.spec.concurrencyPolicy = .allow ∧
    c8run2.1 = .error (.store .alreadyExists) ∧
    c8run2.2.events.filter (fun e => e.reason = "AlreadyActive") = [] ∧
    c8run2.2.events.filter (fun e => e.reason = "OverridePolicy") ≠ [] := by
  decide

/-- C9: when the cron expression fails to parse, scheduleNextIfPossible
records exactly one InvalidSchedule warning and returns neither an error
nor a wakeup hint, and neither the cron nor the store changes (no workload
is created, nothing to retry until the spec changes). -/
theorem c9_invalid_schedule_no_retry (cl : Client σ) (env : SchedEnv)
    (now : Int) (s : RSt σ)
    (hp : env.parse s.cron.spec.schedule = none) :
    scheduleNextIfPossible cl env now s =
      (.ok none, { s with events := s.events ++ [⟨.warning, "InvalidSchedule"⟩] }) := by
  unfold scheduleNextIfPossible
  rw [hp]

/-- C9 witness at the unparsable expression "bad". -/
theorem c9_invalid_schedule_no_retry_witness :
    envG.parse cronC9.spec.schedule = none ∧
    scheduleNextIfPossible unitClient envG 5 sC9 =
      (.ok none, { sC9 with events := sC9.events ++ [⟨.warning, "InvalidSchedule"⟩] }) :=
  ⟨rfl, c9_invalid_schedule_no_retry unitClient envG 5 sC9 rfl⟩

/-- C10: every workload newWorkloadFromTemplate returns has an empty
generateName (a template generateName is forcibly cleared), and its name is
the template's explicit name when one is given, else the deterministic
default synthesized from the cron name and the firing timestamp — so the
created object's name never carries a randomized suffix. -/
theorem c10_generate_name_cleared_deterministic (t : Int) (s : RSt σ)
    (w : Workload) (s2 : RSt σ)
    (h : newWorkloadFromTemplate t s = (.ok w, s2)) :
    w.generateName = "" ∧
    w.name = (if s.cron.spec.templateName = "" then getDefaultJobName s.cron t
              else s.cron.spec.templateName) := by
  unfold newWorkloadFromTemplate at h
  cases hne : newEmptyWorkload s.cron with
  | error e => rw [hne] at h; simp at h
  | ok w0 =>
    rw [hne] at h
    unfold newEmptyWorkload at hne
    split at hne
    · injection hne with hw0
      subst hw0
      by_cases hgen : s.cron.spec.templateGenerateName = ""
      · by_cases hnm : s.cron.spec.templateName = ""
        · simp only [hgen, hnm] at h
          simp at h
          obtain ⟨hw, hs⟩ := h
          subst hw
          simp [hnm]
        · simp only [hgen] at h
          simp [hnm] at h
          obtain ⟨hw, hs⟩ := h
          subst hw
          simp [hnm]
      · by_cases hnm : s.cron.spec.templateName = ""
        · simp only [hnm] at h
          simp [hgen] at h
          obtain ⟨hw, hs⟩ := h
          subst hw
          simp [hnm]
        · simp [hgen, hnm] at h
          obtain ⟨hw, hs⟩ := h
          subst hw
          simp [hnm]
    · cases hne

/-- C10 witness: from a template with generateName "gen-" and no name, the
built workload has an empty generateName and the default name "demo-5". -/
theorem c10_generate_name_cleared_deterministic_witness :
    newWorkloadFromTemplate 5 sC10 = (.ok wC10, sC10) ∧
    wC10.generateName = "" ∧
    wC10.name = (if sC10.cron.spec.templateName = "" then getDefaultJobName sC10.cron 5
                 else sC10.cron.spec.templateName) :=
  ⟨by decide,
   (c10_generate_name_cleared_deterministic 5 sC10 wC10 sC10 (by decide)).1,
   (c10_generate_name_cleared_deterministic 5 sC10 wC10 sC10 (by decide)).2⟩
